import Mathlib

/-
Verification of the LUME desktop command handlers
(src/lume_desk/src-tauri/src/commands.rs) against the natural-language
specification.

Shallow embedding notes:
* Every Tauri command in commands.rs is an `async fn` returning
  `Result<T, String>`; it is embedded as a Lean function returning
  `Except String T`.
* `f64` fields (`current_time`, `total_duration`) are embedded as `ℚ`;
  the source only ever constructs the exact constant `0.0`, which `ℚ`
  represents exactly, so no floating-point rounding is involved.
* `lib.rs` builds the Tauri application with no `.manage(..)` call and
  `commands.rs` declares no statics, so the handlers share no mutable
  program state.  The observable application state is therefore the
  empty record `AppState`, threaded explicitly through the `_st`
  variants of the handlers.
* `std::collections::HashMap<String, bool>` is embedded as an
  association list with replacing insert (`hmInsert`) and lookup
  (`hmGet`).
-/

namespace LUME

/-- Health state of a controller (spec §3, Controller.health). -/
inductive HealthState
  | Unknown
  | Reachable
  | Unreachable
  | Faulted
deriving DecidableEq

/-- Result field of a CommandOutcome (spec §3). -/
inductive CommandResult
  | Success
  | Timeout
  | Rejected
  | TransportError
deriving DecidableEq

/-- The `ShowStatus` struct from commands.rs.  `current_time` and
`total_duration` are `f64` in the source, embedded as `ℚ` (the source only
constructs the exact value `0.0`). -/
structure ShowStatus where
  is_running : Bool
  current_time : ℚ
  total_duration : ℚ
  active_effects : List String
deriving DecidableEq

/-- The observable mutable state of the application.  lib.rs installs no
managed state (`tauri::Builder::default()` with no `.manage`), and
commands.rs declares no statics, so the state record has no fields. -/
structure AppState
deriving DecidableEq

/-- Replacing insert of the association-list model of
`std::collections::HashMap<String, bool>`. -/
def hmInsert (k : String) (v : Bool) : List (String × Bool) → List (String × Bool)
  | [] => [(k, v)]
  | (k', v') :: rest => if k = k' then (k, v) :: rest else (k', v') :: hmInsert k v rest

/-- Lookup in the association-list model of `HashMap<String, bool>`. -/
def hmGet (k : String) : List (String × Bool) → Option Bool
  | [] => none
  | (k', v) :: rest => if k = k' then some v else hmGet k rest

/-- `start_show` from commands.rs: logs, then unconditionally returns
`Ok(format!("Show started with {} bytes of data", show_data.len()))`.
`String::len` in Rust is the UTF-8 byte length. -/
def start_show (show_data : String) : Except String String :=
  Except.ok ("Show started with " ++ toString show_data.utf8ByteSize ++ " bytes of data")

/-- `stop_show` from commands.rs: logs, then unconditionally returns `Ok(())`. -/
def stop_show : Except String Unit :=
  Except.ok ()

/-- `get_show_status` from commands.rs: unconditionally returns the constant
`Ok(ShowStatus { is_running: false, current_time: 0.0, total_duration: 0.0,
active_effects: vec![] })`. -/
def get_show_status : Except String ShowStatus :=
  Except.ok { is_running := false, current_time := 0, total_duration := 0, active_effects := [] }

/-- `test_controller_connection` from commands.rs: logs the address, then
unconditionally returns `Ok(true)`. -/
def test_controller_connection (address : String) : Except String Bool :=
  Except.ok true

/-- `export_show` from commands.rs.  `uuid::Uuid::new_v4()` draws fresh
randomness from the OS; the generated uuid string is therefore passed in as
an explicit parameter `export_id`.  The handler matches on the format
string: "lume" and "csv" succeed, everything else is an
`Unsupported export format` error. -/
def export_show (show_data fmt export_id : String) : Except String String :=
  if fmt = "lume" then
    Except.ok ("Exported show as LUME format with ID: " ++ export_id)
  else if fmt = "csv" then
    Except.ok ("Exported timing data as CSV with ID: " ++ export_id)
  else
    Except.error ("Unsupported export format: " ++ fmt)

/-- `validate_show_data` from commands.rs: ignores its argument and returns
`Ok` of the map built by inserting `timing_valid ↦ true`,
`effects_valid ↦ true`, `controllers_available ↦ false` into an empty
`HashMap`, in that order. -/
def validate_show_data (show_data : String) : Except String (List (String × Bool)) :=
  Except.ok (hmInsert "controllers_available" false
    (hmInsert "effects_valid" true
      (hmInsert "timing_valid" true [])))

/-- State-threaded form of `start_show`: the handler reads and writes no
program state, so the state passes through unchanged. -/
def start_show_st (show_data : String) (σ : AppState) : Except String String × AppState :=
  (start_show show_data, σ)

/-- State-threaded form of `stop_show`. -/
def stop_show_st (σ : AppState) : Except String Unit × AppState :=
  (stop_show, σ)

/-- State-threaded form of `get_show_status`. -/
def get_show_status_st (σ : AppState) : Except String ShowStatus × AppState :=
  (get_show_status, σ)

/-- State-threaded form of `validate_show_data`. -/
def validate_show_data_st (show_data : String) (σ : AppState) :
    Except String (List (String × Bool)) × AppState :=
  (validate_show_data show_data, σ)

/-- Modelled from the spec: the Controller Registry (§4.2) is absent from
src/ (only placeholder discovery commands exist), so its per-controller
health record is taken from the spec's words: the current health state plus
the timestamps of the current run of consecutive failure outcomes. -/
structure ControllerHealth where
  health : HealthState
  recentFailures : List ℚ
deriving DecidableEq

/-- Modelled from the spec: the rolling failure window, "default 5 seconds"
(§4.2). -/
def failureWindow : ℚ := 5

/-- Modelled from the spec: recording one Timeout/TransportError outcome at
time `t` — the failure joins the run of consecutive failures still inside
the rolling window, and once three such failures have accumulated the
controller becomes Unreachable. -/
def recordFailure (t : ℚ) (s : ControllerHealth) : ControllerHealth :=
  let fs := t :: s.recentFailures.filter (fun u => t - u ≤ failureWindow)
  { health := if 3 ≤ fs.length then HealthState.Unreachable else s.health,
    recentFailures := fs }

/-- Modelled from the spec: `record_outcome` of the Controller Registry
(§4.2), absent from src/.  "three consecutive Timeout/TransportError
outcomes within a rolling window (default 5 seconds) transition a
controller to Unreachable; any Success transitions it back to Reachable
immediately."  A Rejected outcome indicates a malformed command, not a
transport fault, and leaves health untouched. -/
def record_outcome (t : ℚ) (r : CommandResult) (s : ControllerHealth) : ControllerHealth :=
  match r with
  | CommandResult.Success => { health := HealthState.Reachable, recentFailures := [] }
  | CommandResult.Rejected => s
  | CommandResult.Timeout => recordFailure t s
  | CommandResult.TransportError => recordFailure t s

/-- A show-control operation issued by the frontend: either
`start_show(show_data)` or `stop_show()`. -/
inductive Op
  | start (show_data : String)
  | stop

/-- Run a sequence of show-control operations from a given application
state, discarding the returned messages. -/
def runOps : List Op → AppState → AppState
  | [], σ => σ
  | Op.start d :: rest, σ => runOps rest (start_show_st d σ).2
  | Op.stop :: rest, σ => runOps rest (stop_show_st σ).2

/-- C1, counterexample.  The claim says the state-transition commands fail
with an error when issued from an illegal state; in the code, `stop_show`
issued with no show running succeeds, and `start_show` issued right after a
previous `start_show` (show already "running") also succeeds. -/
theorem c1_counterexample :
    (stop_show_st AppState.mk).1 = Except.ok () ∧
    (start_show_st "x" (start_show_st "x" AppState.mk).2).1 =
      Except.ok "Show started with 1 bytes of data" :=
  ⟨rfl, rfl⟩

/-- C1, amended.  `start_show` and `stop_show` are placeholder handlers that
never inspect scheduler state: from every application state they return
`Ok`, so no call sequence ever produces an `InvalidStateTransition` (or any)
error. -/
theorem c1_start_stop_always_succeed (σ : AppState) (d : String) :
    (start_show_st d σ).1 =
      Except.ok ("Show started with " ++ toString d.utf8ByteSize ++ " bytes of data") ∧
    (stop_show_st σ).1 = Except.ok () :=
  ⟨rfl, rfl⟩

/-- C2, counterexample.  Validating the show data "show" produces a report
whose `controllers_available` entry is `false` — the controllers-unavailable
error of the claim — and yet `start_show` on the same data succeeds:
playback start is not blocked. -/
theorem c2_counterexample :
    (∃ rep, validate_show_data "show" = Except.ok rep ∧
      hmGet "controllers_available" rep = some false) ∧
    start_show "show" = Except.ok "Show started with 4 bytes of data" :=
  ⟨⟨_, rfl, by decide⟩, rfl⟩

/-- C2, amended.  `start_show` never consults the validation report:
`validate_show_data` always reports `controllers_available = false`, and
`start_show` on the same input nevertheless succeeds — a report containing
an error does not block playback start. -/
theorem c2_validation_never_blocks_start (s : String) :
    ∃ rep, validate_show_data s = Except.ok rep ∧
      hmGet "controllers_available" rep = some false ∧
      start_show s =
        Except.ok ("Show started with " ++ toString s.utf8ByteSize ++ " bytes of data") :=
  ⟨_, rfl, by decide, rfl⟩

/-- C3.  `validate_show_data` is deterministic and side-effect-free: calling
it twice with identical inputs yields identical reports, and neither call
changes the observable application state. -/
theorem c3_validate_deterministic_and_pure (s : String) (σ : AppState) :
    (validate_show_data_st s σ).1 =
      (validate_show_data_st s (validate_show_data_st s σ).2).1 ∧
    (validate_show_data_st s σ).2 = σ ∧
    (validate_show_data_st s (validate_show_data_st s σ).2).2 = σ :=
  ⟨rfl, rfl, rfl⟩

/-- C4.  `export_show` supports exactly the formats "lume" and "csv": each
of those returns a success message, and every other format string returns
an `Unsupported export format` error. -/
theorem c4_export_formats (show_data fmt export_id : String) :
    (fmt = "lume" →
      export_show show_data fmt export_id =
        Except.ok ("Exported show as LUME format with ID: " ++ export_id)) ∧
    (fmt = "csv" →
      export_show show_data fmt export_id =
        Except.ok ("Exported timing data as CSV with ID: " ++ export_id)) ∧
    (fmt ≠ "lume" → fmt ≠ "csv" →
      export_show show_data fmt export_id =
        Except.error ("Unsupported export format: " ++ fmt)) := by
  refine ⟨fun h => ?_, fun h => ?_, fun h₁ h₂ => ?_⟩
  · simp [export_show, h]
  · subst h
    simp [export_show]
  · simp [export_show, h₁, h₂]

/-- C4, witness: the three branches of `c4_export_formats` at concrete
inputs. -/
theorem c4_export_formats_witness :
    export_show "" "lume" "u" =
      Except.ok ("Exported show as LUME format with ID: " ++ "u") ∧
    export_show "" "csv" "u" =
      Except.ok ("Exported timing data as CSV with ID: " ++ "u") ∧
    export_show "" "xml" "u" = Except.error ("Unsupported export format: " ++ "xml") :=
  ⟨(c4_export_formats "" "lume" "u").1 rfl,
   (c4_export_formats "" "csv" "u").2.1 rfl,
   (c4_export_formats "" "xml" "u").2.2 (by decide) (by decide)⟩

/-- C5.  `get_show_status` always succeeds: it is the constant
`Ok { is_running := false, current_time := 0, total_duration := 0,
active_effects := [] }` and never takes the error branch. -/
theorem c5_status_always_ok :
    get_show_status =
      Except.ok { is_running := false, current_time := 0, total_duration := 0,
                  active_effects := [] } :=
  rfl

/-- C6.  Between any two status snapshots returned by `get_show_status`,
`current_time` is non-decreasing (the handler always reports
`current_time = 0.0` and never reports Playing, so the monotonicity claim
holds for every pair of consecutive snapshots). -/
theorem c6_clock_monotone (s₁ s₂ : ShowStatus)
    (h₁ : get_show_status = Except.ok s₁) (h₂ : get_show_status = Except.ok s₂) :
    s₁.current_time ≤ s₂.current_time := by
  simp only [get_show_status, Except.ok.injEq] at h₁ h₂
  subst h₁
  subst h₂
  exact le_refl _

/-- C6, witness: the two hypotheses discharged at the snapshot the handler
actually returns. -/
theorem c6_clock_monotone_witness :
    ({ is_running := false, current_time := 0, total_duration := 0,
       active_effects := [] } : ShowStatus).current_time ≤
    ({ is_running := false, current_time := 0, total_duration := 0,
       active_effects := [] } : ShowStatus).current_time :=
  c6_clock_monotone _ _ rfl rfl

theorem record_outcome_failure (t : ℚ) (r : CommandResult)
    (hr : r = CommandResult.Timeout ∨ r = CommandResult.TransportError)
    (s : ControllerHealth) :
    record_outcome t r s = recordFailure t s := by
  rcases hr with h | h <;> subst h <;> rfl

theorem recordFailure_recentFailures (t : ℚ) (s : ControllerHealth) :
    (recordFailure t s).recentFailures =
      t :: s.recentFailures.filter (fun u => t - u ≤ failureWindow) :=
  rfl

theorem recordFailure_health_unreachable (t : ℚ) (s : ControllerHealth)
    (h : 2 ≤ (s.recentFailures.filter (fun u => t - u ≤ failureWindow)).length) :
    (recordFailure t s).health = HealthState.Unreachable := by
  have h3 : 3 ≤ (t :: s.recentFailures.filter (fun u => t - u ≤ failureWindow)).length := by
    simp only [List.length_cons]
    omega
  show (if 3 ≤ (t :: s.recentFailures.filter (fun u => t - u ≤ failureWindow)).length
        then HealthState.Unreachable else s.health) = HealthState.Unreachable
  rw [if_pos h3]

/-- C7.  Decaying-failure health policy (modelled from the spec, §4.2):
three consecutive Timeout/TransportError outcomes whose timestamps all lie
within the rolling window transition a controller to Unreachable, and any
single subsequent Success outcome transitions it back to Reachable
immediately, from any starting health record. -/
theorem c7_health_flapping (s : ControllerHealth) (t₁ t₂ t₃ : ℚ)
    (r₁ r₂ r₃ : CommandResult)
    (hr₁ : r₁ = CommandResult.Timeout ∨ r₁ = CommandResult.TransportError)
    (hr₂ : r₂ = CommandResult.Timeout ∨ r₂ = CommandResult.TransportError)
    (hr₃ : r₃ = CommandResult.Timeout ∨ r₃ = CommandResult.TransportError)
    (h₁₂ : t₁ ≤ t₂) (h₂₃ : t₂ ≤ t₃) (hw : t₃ - t₁ ≤ failureWindow) :
    (record_outcome t₃ r₃ (record_outcome t₂ r₂ (record_outcome t₁ r₁ s))).health =
      HealthState.Unreachable ∧
    ∀ t₄ : ℚ,
      (record_outcome t₄ CommandResult.Success
        (record_outcome t₃ r₃ (record_outcome t₂ r₂ (record_outcome t₁ r₁ s)))).health =
      HealthState.Reachable := by
  rw [record_outcome_failure t₁ r₁ hr₁, record_outcome_failure t₂ r₂ hr₂,
    record_outcome_failure t₃ r₃ hr₃]
  have h2w : t₂ - t₁ ≤ failureWindow := by linarith
  have h3w : t₃ - t₂ ≤ failureWindow := by linarith
  refine ⟨?_, fun t₄ => rfl⟩
  apply recordFailure_health_unreachable
  simp only [recordFailure_recentFailures, List.filter_cons, decide_eq_true_eq, h2w, h3w, hw,
    if_true, List.length_cons]
  omega

/-- C7, witness: three Timeouts at times 0, 1, 2 (all within the 5-second
window) starting from an Unknown controller, then one Success at time 3. -/
theorem c7_health_flapping_witness :
    (record_outcome 2 CommandResult.Timeout
      (record_outcome 1 CommandResult.Timeout
        (record_outcome 0 CommandResult.Timeout
          ⟨HealthState.Unknown, []⟩))).health = HealthState.Unreachable ∧
    (record_outcome 3 CommandResult.Success
      (record_outcome 2 CommandResult.Timeout
        (record_outcome 1 CommandResult.Timeout
          (record_outcome 0 CommandResult.Timeout
            ⟨HealthState.Unknown, []⟩)))).health = HealthState.Reachable :=
  ⟨(c7_health_flapping ⟨HealthState.Unknown, []⟩ 0 1 2 _ _ _
      (Or.inl rfl) (Or.inl rfl) (Or.inl rfl)
      (by norm_num) (by norm_num) (by norm_num [failureWindow])).1,
   (c7_health_flapping ⟨HealthState.Unknown, []⟩ 0 1 2 _ _ _
      (Or.inl rfl) (Or.inl rfl) (Or.inl rfl)
      (by norm_num) (by norm_num) (by norm_num [failureWindow])).2 3⟩

/-- C8.  `validate_show_data` ignores its input: for every input string it
returns `Ok` of exactly the three-entry map
`timing_valid ↦ true, effects_valid ↦ true, controllers_available ↦ false`. -/
theorem c8_validate_constant (s : String) :
    validate_show_data s =
      Except.ok [("timing_valid", true), ("effects_valid", true),
                 ("controllers_available", false)] ∧
    hmGet "timing_valid"
      [("timing_valid", true), ("effects_valid", true),
       ("controllers_available", false)] = some true ∧
    hmGet "effects_valid"
      [("timing_valid", true), ("effects_valid", true),
       ("controllers_available", false)] = some true ∧
    hmGet "controllers_available"
      [("timing_valid", true), ("effects_valid", true),
       ("controllers_available", false)] = some false :=
  ⟨rfl, by decide, by decide, by decide⟩

/-- C9.  Starting or stopping a show never changes the observable playback
state: after every sequence of `start_show`/`stop_show` calls,
`get_show_status` still reports not running, time 0, duration 0 and no
active effects. -/
theorem c9_start_stop_frame (ops : List Op) (σ : AppState) :
    (get_show_status_st (runOps ops σ)).1 =
      Except.ok { is_running := false, current_time := 0, total_duration := 0,
                  active_effects := [] } :=
  rfl

/-- C10.  `test_controller_connection` returns `Ok(true)` for every address
string: it never reports a controller unreachable and never errors. -/
theorem c10_test_connection_always_true (address : String) :
    test_controller_connection address = Except.ok true :=
  rfl

end LUME
